import Mathlib

set_option maxHeartbeats 1000000

/-
Verification of the VaultDAO repository against its specification.

The repository under review ships a React/TypeScript frontend
(src/frontend/src/hooks/useVaultContract.ts, in two variants, and
src/frontend/src/app/dashboard/Proposals.tsx).  The Soroban contract itself is
not part of the repository, so the one component a claim needs from it (the
Spending Limit Tracker) is modelled from the specification and marked as such.

Library calls made by the frontend (XDR decoding, JSON RPC round trips,
wallet signing) are embedded by their outcomes: each such call becomes an
explicit argument describing what the call produced, covering every input the
original code can meet, including failures.
-/

namespace VaultDAO

/-- Decoded Soroban value as the frontend sees it after scValToNative: a JS
string, a bigint, an object exposing an address (via a method or a string
property, both yielding the address text), some other object, null, or an
array of decoded values.  A failed base64 XDR decode is represented by the
value being absent (none) at every use site. -/
inductive ScNative where
  | str (s : String)
  | int (n : Int)
  | addrObj (s : String)
  | obj
  | null
  | vec (elems : List ScNative)
deriving Repr

mutual

/-- JS String(...) coercion on a decoded value; arrays stringify as their
elements joined with commas, plain objects as the object placeholder text. -/
def jsString : ScNative → String
  | .str s => s
  | .int n => toString n
  | .addrObj _ => "[object Object]"
  | .obj => "[object Object]"
  | .null => "null"
  | .vec xs => jsStringList xs

def jsStringList : List ScNative → String
  | [] => ""
  | [x] => jsString x
  | x :: y :: xs => jsString x ++ "," ++ jsStringList (y :: xs)

end

/-- Embeds addressToNative (useVaultContract.ts lines 43-51): strings pass
through, objects exposing an address yield it, and anything else falls through
to the JS coercion of the nullish-coalesced value, so null gives the empty
string and other values their String(...) text. -/
def addressToNative : ScNative → String
  | .str s => s
  | .addrObj s => s
  | .null => ""
  | .int n => toString n
  | .obj => "[object Object]"
  | .vec xs => jsStringList xs

/-- JS indexing feeding addressToNative: an out-of-range index yields
undefined, and the source then produces the empty string. -/
def addressToNativeOpt : Option ScNative → String
  | none => ""
  | some v => addressToNative v

/-- Known contract event names, EVENT_SYMBOLS (useVaultContract.ts lines
25-28). -/
def EVENT_SYMBOLS : List String :=
  ["proposal_created", "proposal_approved", "proposal_ready", "proposal_executed",
   "proposal_rejected", "signer_added", "signer_removed", "config_updated",
   "initialized", "role_assigned"]

/-- Embeds getEventTypeFromTopic (useVaultContract.ts lines 30-41).  The
library decode of the base64 topic is abstracted as its outcome: none is a
decode failure, which the catch branch turns into the unknown type; a decoded
string is returned verbatim when it is a known symbol. -/
def getEventTypeFromTopic : Option ScNative → String
  | none => "unknown"
  | some (.str s) => if s ∈ EVENT_SYMBOLS then s else "unknown"
  | some _ => "unknown"

/-- Detail fields parseEventValue may assign; a field the source never touched
stays none (the JS record simply lacks the key). -/
structure EventDetails where
  proposer : Option String := none
  recipient : Option String := none
  amount : Option String := none
  approval_count : Option ScNative := none
  threshold : Option ScNative := none
  total_signers : Option ScNative := none
  role : Option ScNative := none
  raw : Option ScNative := none
  ledger : Option String := none
  parseError : Bool := false

/-- Return value of parseEventValue: the acting identity and the detail
record. -/
structure ParsedEvent where
  actor : String
  details : EventDetails

/-- JS expression used for the amount field: the element if it is neither null
nor undefined is coerced with String(...), otherwise the empty string. -/
def amountString : Option ScNative → String
  | none => ""
  | some .null => ""
  | some v => jsString v

/-- JS test for a non-null object on non-array values (null has object type in
JS but is excluded explicitly; bigints and strings are not objects). -/
def isJsObject : ScNative → Bool
  | .addrObj _ => true
  | .obj => true
  | _ => false

/-- Embeds parseEventValue (useVaultContract.ts lines 53-94).  The decode of
the value XDR is abstracted as its outcome; none is a decode failure, handled
by the catch branch.  The second copy of the hook (lines 414-451) differs only
by dropping the two no-op proposal_rejected branches, so there a rejected
tuple or object additionally lands in the raw branch; every branch a claim
touches is identical in both copies. -/
def parseEventValue (decoded : Option ScNative) (eventType : String) : ParsedEvent :=
  match decoded with
  | none => { actor := "", details := { parseError := true } }
  | some native =>
    match native with
    | .vec vec =>
      let actor := addressToNativeOpt vec.head?
      if eventType = "proposal_created" ∧ 3 ≤ vec.length then
        { actor := actor,
          details := { proposer := some actor,
                       recipient := some (addressToNativeOpt (vec.get? 1)),
                       amount := some (amountString (vec.get? 2)) } }
      else if eventType = "proposal_approved" ∧ 3 ≤ vec.length then
        { actor := actor,
          details := { approval_count := vec.get? 1, threshold := vec.get? 2 } }
      else if eventType = "proposal_executed" ∧ 3 ≤ vec.length then
        { actor := actor,
          details := { recipient := some (addressToNativeOpt (vec.get? 1)),
                       amount := some (amountString (vec.get? 2)) } }
      else if eventType = "proposal_rejected" then
        { actor := actor, details := {} }
      else if (eventType = "signer_added" ∨ eventType = "signer_removed") ∧ 2 ≤ vec.length then
        { actor := actor, details := { total_signers := vec.get? 1 } }
      else if eventType = "role_assigned" ∧ 2 ≤ vec.length then
        { actor := actor, details := { role := vec.get? 1 } }
      else
        { actor := actor, details := { raw := some native } }
    | nonvec =>
      let actor := addressToNative nonvec
      if eventType = "proposal_rejected" then
        { actor := actor, details := {} }
      else if isJsObject nonvec then
        { actor := actor, details := { raw := some nonvec } }
      else
        { actor := actor, details := {} }

/-- Outcome of one RPC round trip as the calling code observes it: a parsed
result, or a thrown failure (network error, JSON error field, or malformed
body). -/
inductive RpcResult (α : Type) where
  | ok (val : α)
  | fail (msg : String)

/-- Raw event of the getEvents response (useVaultContract.ts lines 97-107).
The first topic entry and the value XDR are carried as decode outcomes; an
absent or empty base64 string is merged into the outer none since the source
treats both as falsy. -/
structure RawEvent where
  id : String
  ledger : String
  ledgerClosedAt : Option String := none
  pagingToken : Option String := none
  topic0 : Option (Option ScNative) := none
  value : Option (Option ScNative) := none

/-- Activity record assembled from one raw event. -/
structure VaultActivity where
  id : String
  type : String
  timestamp : String
  ledger : String
  actor : String
  details : EventDetails
  eventId : String
  pagingToken : Option String

/-- Fields of the getEvents JSON result the source reads. -/
structure EventsPayload where
  events : List RawEvent := []
  cursor : Option String := none
  latestLedger : Option String := none

/-- Return type of getVaultEvents. -/
structure GetVaultEventsResult where
  activities : List VaultActivity
  latestLedger : String
  cursor : Option String := none
  hasMore : Bool

/-- Pagination request fields the source places into the getEvents params. -/
structure RequestParams where
  limit : Nat
  startLedger : Option String := none
  cursor : Option String := none

def EVENTS_PAGE_SIZE : Nat := 20

/-- Embeds the request construction of getVaultEvents (lines 260-267): the
pagination limit is capped at 200; without a cursor the start ledger is the
larger of 1 and the latest ledger minus 50000, stringified; with a cursor the
cursor rides in the pagination object instead. -/
def eventsRequestParams (cursor : Option String) (limit : Nat) (latestLedger : Int) :
    RequestParams :=
  match cursor with
  | none =>
    { limit := min limit 200,
      startLedger := some (toString (max 1 (latestLedger - 50000))) }
  | some c => { limit := min limit 200, cursor := some c }

/-- JS truthiness of the cursor string of the getEvents response. -/
def cursorTruthy : Option String → Bool
  | none => false
  | some s => if s = "" then false else true

/-- JS fallback for the activity timestamp: a missing or empty ledgerClosedAt
falls back to the current time, passed in here as nowIso. -/
def timestampOf (ledgerClosedAt : Option String) (nowIso : String) : String :=
  match ledgerClosedAt with
  | none => nowIso
  | some s => if s = "" then nowIso else s

/-- Embeds the event loop body of getVaultEvents (lines 286-305): an event
without a first topic is skipped; otherwise the topic decode names the type,
the value decode (when a value is present) supplies actor and details, and the
ledger is merged into the details. -/
def eventToActivity (nowIso : String) (ev : RawEvent) : Option VaultActivity :=
  match ev.topic0 with
  | none => none
  | some d =>
    let eventType := getEventTypeFromTopic d
    let parsed :=
      match ev.value with
      | some v => parseEventValue v eventType
      | none => { actor := "", details := {} }
    some { id := ev.id, type := eventType,
           timestamp := timestampOf ev.ledgerClosedAt nowIso,
           ledger := ev.ledger, actor := parsed.actor,
           details := { parsed.details with ledger := some ev.ledger },
           eventId := ev.id, pagingToken := ev.pagingToken }

/-- Value produced by the catch-all branch of getVaultEvents (lines 313-316). -/
def emptyEventsResult : GetVaultEventsResult :=
  { activities := [], latestLedger := "0", hasMore := false }

/-- Embeds getVaultEvents (useVaultContract.ts lines 244-317).  The two RPC
round trips, getLatestLedger and getEvents, are abstracted as their outcomes;
a missing sequence field arrives as ok none and becomes zero.  Any thrown
failure lands in the catch branch, which logs to the console and returns
emptyEventsResult.  hasMore is true when the response cursor is truthy and
the raw event count equals the requested limit. -/
def getVaultEvents (cursor : Option String) (limit : Nat) (nowIso : String)
    (latestResp : RpcResult (Option Int)) (eventsResp : RpcResult EventsPayload) :
    GetVaultEventsResult :=
  match latestResp with
  | .fail _ => emptyEventsResult
  | .ok seq =>
    let latestLedger : Int := seq.getD 0
    let _params := eventsRequestParams cursor limit latestLedger
    match eventsResp with
    | .fail _ => emptyEventsResult
    | .ok payload =>
      let events := payload.events
      let resultCursor := payload.cursor
      let hasMore := cursorTruthy resultCursor && (events.length == limit)
      let activities := events.filterMap (eventToActivity nowIso)
      { activities := activities,
        latestLedger := payload.latestLedger.getD (toString (seq.getD 0)),
        cursor := resultCursor,
        hasMore := hasMore }

/-- Stats record of the dashboard. -/
structure DashboardStats where
  totalBalance : String
  totalProposals : Nat
  pendingApprovals : Nat
  readyToExecute : Nat
  activeSigners : Nat
  threshold : String
deriving DecidableEq, Repr

/-- One balance entry of the fetched account. -/
structure StellarBalance where
  asset_type : String
  balance : String

/-- Locale formatting of the parsed balance string; no claim depends on the
number formatting, so the embedding keeps the text abstract as itself. -/
def formatBalance (s : String) : String := s

/-- Embeds getDashboardStats (second hook copy, lines 469-494): on success a
stats record around the fetched native balance with hardcoded counts; on any
failure the catch branch logs and returns the all-zero record. -/
def getDashboardStats (resp : RpcResult (List StellarBalance)) : DashboardStats :=
  match resp with
  | .fail _ =>
    { totalBalance := "0", totalProposals := 0, pendingApprovals := 0,
      readyToExecute := 0, activeSigners := 0, threshold := "0/0" }
  | .ok balances =>
    let native := balances.find? (fun b => b.asset_type == "native")
    { totalBalance :=
        match native with
        | some b => formatBalance b.balance
        | none => "0",
      totalProposals := 24, pendingApprovals := 3, readyToExecute := 1,
      activeSigners := 5, threshold := "3/5" }

/-- Recurring payment record of the hook (lines 347-359). -/
structure RecurringPayment where
  id : String
  recipient : String
  token : String
  amount : String
  memo : String
  interval : Nat
  nextPaymentTime : Int
  totalPayments : Nat
  status : String
  createdAt : Int
  creator : String

/-- Hardcoded mock list returned by getRecurringPayments (lines 701-741);
Date.now() is passed in as now. -/
def mockRecurringPayments (now : Int) : List RecurringPayment :=
  [{ id := "1",
     recipient := "GXXXXXXXXXXXXXXXXXXXXXXXXXXXXXXXXXXXXXXXXXXXXXXX1",
     token := "CDXXXXXXXXXXXXXXXXXXXXXXXXXXXXXXXXXXXXXXXXXXXXXXXXXXXXXX",
     amount := "1000000000", memo := "Monthly salary", interval := 2592000,
     nextPaymentTime := now + 86400000, totalPayments := 12, status := "active",
     createdAt := now - 31536000000,
     creator := "GYYYYYYYYYYYYYYYYYYYYYYYYYYYYYYYYYYYYYYYYYYYYYYYY" },
   { id := "2",
     recipient := "GXXXXXXXXXXXXXXXXXXXXXXXXXXXXXXXXXXXXXXXXXXXXXXX2",
     token := "CDXXXXXXXXXXXXXXXXXXXXXXXXXXXXXXXXXXXXXXXXXXXXXXXXXXXXXX",
     amount := "500000000", memo := "Weekly subscription", interval := 604800,
     nextPaymentTime := now - 3600000, totalPayments := 52, status := "active",
     createdAt := now - 15768000000,
     creator := "GYYYYYYYYYYYYYYYYYYYYYYYYYYYYYYYYYYYYYYYYYYYYYYYY" },
   { id := "3",
     recipient := "GXXXXXXXXXXXXXXXXXXXXXXXXXXXXXXXXXXXXXXXXXXXXXXX3",
     token := "CDXXXXXXXXXXXXXXXXXXXXXXXXXXXXXXXXXXXXXXXXXXXXXXXXXXXXXX",
     amount := "250000000", memo := "Paused service", interval := 86400,
     nextPaymentTime := now + 86400000, totalPayments := 5, status := "paused",
     createdAt := now - 2592000000,
     creator := "GYYYYYYYYYYYYYYYYYYYYYYYYYYYYYYYYYYYYYYYYYYYYYYYY" }]

/-- Embeds getRecurringPayments (lines 694-748).  The account fetch carries an
inline catch that absorbs its own failure and continues, so the mock list is
returned whether or not the RPC call succeeds; the outer catch, which would
return the empty list, is unreachable. -/
def getRecurringPayments (now : Int) (accountResp : RpcResult Unit) :
    List RecurringPayment :=
  match accountResp with
  | .fail _ => mockRecurringPayments now
  | .ok _ => mockRecurringPayments now

/-- Wallet context the hook closes over. -/
structure WalletState where
  isConnected : Bool
  address : Option String

/-- JS falsiness of the wallet address in the guard: a missing or empty
address is falsy. -/
def addrFalsy : Option String → Bool
  | none => true
  | some s => if s = "" then true else false

/-- Guard condition shared by every mutating hook function. -/
def walletGuardFails (w : WalletState) : Bool :=
  !w.isConnected || addrFalsy w.address

/-- Contract invocation assembled into the transaction: the invoked function
name and its arguments, all rendered as text. -/
structure ContractCall where
  functionName : String
  args : List String
deriving DecidableEq, Repr

/-- Modelled from the spec: parseError of src/frontend/src/utils/errorParser.ts
is not in the repository.  The spec requires only that every failure reach the
caller as a distinguishable code, so the model surfaces the message unchanged. -/
def parseErrorM (e : String) : String := e

/-- Outcome of the submit pipeline every mutating hook function shares: each
stage (account fetch, simulation, wallet signing, transaction send) can throw,
or the transaction is sent and a status with the hash comes back. -/
inductive SubmitOutcome where
  | accountFail (msg : String)
  | simError (msg : String)
  | signFail (msg : String)
  | sendFail (msg : String)
  | sent (status : String) (hash : String)

/-- Result of one mutating hook call: the value returned or the error thrown,
together with the transactions actually handed to sendTransaction. -/
structure OpResult where
  outcome : Except String String
  submitted : List ContractCall

/-- Embeds the body shared by every mutating hook function after its wallet
guard (build, simulate, sign, submit; lines 499-532 and its near-verbatim
copies): a simulation error throws the Simulation Failed message, any stage
throw is rethrown through parseError, and the functions that check the
submission status (checkPending) additionally throw when the returned status
is not PENDING.  In the second hook copy only executeProposal checks; the
first copy also checks in proposeTransfer and rejectProposal. -/
def submitContractCall (call : ContractCall) (checkPending : Bool) (o : SubmitOutcome) :
    OpResult :=
  match o with
  | .accountFail m => { outcome := .error (parseErrorM m), submitted := [] }
  | .simError m =>
    { outcome := .error (parseErrorM ("Simulation Failed: " ++ m)), submitted := [] }
  | .signFail m => { outcome := .error (parseErrorM m), submitted := [] }
  | .sendFail m => { outcome := .error (parseErrorM m), submitted := [call] }
  | .sent status hash =>
    if checkPending ∧ status ≠ "PENDING" then
      { outcome := .error (parseErrorM "Transaction submission failed"), submitted := [call] }
    else
      { outcome := .ok hash, submitted := [call] }

/-- Embeds proposeTransfer (lines 496-533; first copy lines 113-182): wallet
guard, then the propose_transfer invocation through the shared pipeline. -/
def proposeTransfer (w : WalletState) (recipient token amount memo : String)
    (o : SubmitOutcome) : OpResult :=
  if walletGuardFails w then
    { outcome := .error "Wallet not connected", submitted := [] }
  else
    submitContractCall
      { functionName := "propose_transfer",
        args := [w.address.getD "", recipient, token, amount, memo] } false o

/-- Embeds rejectProposal (lines 535-569; first copy lines 184-242). -/
def rejectProposal (w : WalletState) (proposalId : Nat) (o : SubmitOutcome) : OpResult :=
  if walletGuardFails w then
    { outcome := .error "Wallet not connected", submitted := [] }
  else
    submitContractCall
      { functionName := "reject_proposal",
        args := [w.address.getD "", toString proposalId] } false o

/-- Embeds executeProposal (lines 571-631), which checks the submission
status. -/
def executeProposal (w : WalletState) (proposalId : Nat) (o : SubmitOutcome) : OpResult :=
  if walletGuardFails w then
    { outcome := .error "Wallet not connected", submitted := [] }
  else
    submitContractCall
      { functionName := "execute_proposal",
        args := [w.address.getD "", toString proposalId] } true o

/-- Embeds schedulePayment (lines 785-828). -/
def schedulePayment (w : WalletState) (recipient token amount memo : String)
    (interval : Nat) (o : SubmitOutcome) : OpResult :=
  if walletGuardFails w then
    { outcome := .error "Wallet not connected", submitted := [] }
  else
    submitContractCall
      { functionName := "schedule_payment",
        args := [w.address.getD "", recipient, token, amount, memo, toString interval] }
      false o

/-- Embeds executeRecurringPayment (lines 833-872). -/
def executeRecurringPayment (w : WalletState) (paymentId : String) (o : SubmitOutcome) :
    OpResult :=
  if walletGuardFails w then
    { outcome := .error "Wallet not connected", submitted := [] }
  else
    submitContractCall
      { functionName := "execute_recurring_payment",
        args := [w.address.getD "", paymentId] } false o

/-- Embeds cancelRecurringPayment (lines 877-916). -/
def cancelRecurringPayment (w : WalletState) (paymentId : String) (o : SubmitOutcome) :
    OpResult :=
  if walletGuardFails w then
    { outcome := .error "Wallet not connected", submitted := [] }
  else
    submitContractCall
      { functionName := "cancel_recurring_payment",
        args := [w.address.getD "", paymentId] } false o

/-- Embeds pauseRecurringPayment (lines 921-960). -/
def pauseRecurringPayment (w : WalletState) (paymentId : String) (o : SubmitOutcome) :
    OpResult :=
  if walletGuardFails w then
    { outcome := .error "Wallet not connected", submitted := [] }
  else
    submitContractCall
      { functionName := "pause_recurring_payment",
        args := [w.address.getD "", paymentId] } false o

/-- Proposal status union type of the dashboard (Proposals.tsx line 16). -/
inductive PStatus where
  | Pending
  | Approved
  | Executed
  | Rejected
  | Expired
deriving DecidableEq, BEq, Repr

/-- String literal each status stands for in the source union type. -/
def statusName : PStatus → String
  | .Pending => "Pending"
  | .Approved => "Approved"
  | .Executed => "Executed"
  | .Rejected => "Rejected"
  | .Expired => "Expired"

/-- Proposal record of the dashboard (Proposals.tsx lines 9-20). -/
structure Proposal where
  id : Nat
  proposer : String
  recipient : String
  amount : String
  token : String
  memo : String
  status : PStatus
  approvals : Nat
  threshold : Nat
  createdAt : String
deriving DecidableEq, Repr

/-- Hardcoded role of the dashboard component (Proposals.tsx line 59). -/
def userRole : String := "Admin"

/-- Embeds canRejectProposal (Proposals.tsx lines 61-64); isConnected and
address are the wallet context the component closes over, and the guard treats
a missing or empty address as no caller. -/
def canRejectProposal (isConnected : Bool) (address : Option String) (p : Proposal) :
    Bool :=
  match address with
  | none => false
  | some a =>
    if isConnected = false ∨ a = "" then false
    else (p.proposer == a) || (userRole == "Admin")

/-- Render condition of the Reject control (Proposals.tsx line 131): shown
only for a Pending proposal the caller may reject. -/
def rejectButtonShown (isConnected : Bool) (address : Option String) (p : Proposal) :
    Bool :=
  (p.status == PStatus.Pending) && canRejectProposal isConnected address p

/-- Embeds the proposals-list update of handleRejectConfirm (Proposals.tsx
line 79): the entry with the rejected id gets status Rejected, all else kept. -/
def rejectUpdate (rejectingId : Nat) (prev : List Proposal) : List Proposal :=
  prev.map (fun p => if p.id = rejectingId then { p with status := PStatus.Rejected } else p)

/-- Embeds handleRejectConfirm (Proposals.tsx lines 72-87): with no pending id
the handler returns at once; if the contract call resolves, the list is
updated; if it throws, the catch branch only notifies and the list is
untouched. -/
def handleRejectConfirm (rejectingId : Option Nat) (contractCallSucceeded : Bool)
    (proposals : List Proposal) : List Proposal :=
  match rejectingId with
  | none => proposals
  | some rid =>
    if contractCallSucceeded then rejectUpdate rid proposals else proposals

/-- Modelled from the spec: the on-chain Spending Limit Tracker (spec section
4.2) is not in the repository, which ships only the frontend; the daily and
weekly caps come from Config. -/
structure SpendingConfig where
  daily_limit : Nat
  weekly_limit : Nat
deriving DecidableEq, Repr

/-- Modelled from the spec: SpendingWindow record (spec section 3), the bucket
start and the cumulative amount released in the window. -/
structure SpendingWindow where
  window_start : Nat
  consumed : Nat
deriving DecidableEq, Repr

/-- Modelled from the spec: the two window counters; an absent record means
the window has not started and zero is consumed (ephemeral tier eviction is a
valid default state). -/
structure SpendingState where
  daily : Option SpendingWindow := none
  weekly : Option SpendingWindow := none
deriving DecidableEq, Repr

def DAY_SECONDS : Nat := 86400

def WEEK_SECONDS : Nat := 604800

/-- Modelled from the spec: fixed-size buckets anchored at the global epoch. -/
def bucketStart (len now : Nat) : Nat := now - now % len

/-- Modelled from the spec: load or lazily initialize a window, resetting the
counter to zero when the stored window start predates the current bucket
boundary (the rollover policy of spec section 4.2). -/
def loadWindow (stored : Option SpendingWindow) (len now : Nat) : SpendingWindow :=
  match stored with
  | none => { window_start := bucketStart len now, consumed := 0 }
  | some w =>
    if w.window_start < bucketStart len now then
      { window_start := bucketStart len now, consumed := 0 }
    else w

/-- Error of the tracker. -/
inductive SpendError where
  | LimitExceeded
deriving DecidableEq, Repr

/-- Modelled from the spec: check_and_consume (spec section 4.2) fails with
LimitExceeded when consumed plus the amount would exceed either cap, and
otherwise increments both counters in the same step; there is no separate
reserve-then-commit. -/
def check_and_consume (cfg : SpendingConfig) (st : SpendingState) (amount now : Nat) :
    Except SpendError SpendingState :=
  let d := loadWindow st.daily DAY_SECONDS now
  let w := loadWindow st.weekly WEEK_SECONDS now
  if cfg.daily_limit < d.consumed + amount ∨ cfg.weekly_limit < w.consumed + amount then
    .error .LimitExceeded
  else
    .ok { daily := some { window_start := d.window_start, consumed := d.consumed + amount },
          weekly := some { window_start := w.window_start, consumed := w.consumed + amount } }

/-- Modelled from the spec: one execution attempt (manual or recurring) routed
through check_and_consume; a failed invocation aborts and commits nothing
(rollback-on-error, spec section 5), so the stored state is kept. -/
def execStep (cfg : SpendingConfig) (st : SpendingState) (e : Nat × Nat) : SpendingState :=
  match check_and_consume cfg st e.1 e.2 with
  | .ok st2 => st2
  | .error _ => st

/-- Sequence of execution attempts, each an amount with its time. -/
def runExecutions (cfg : SpendingConfig) (st : SpendingState) (execs : List (Nat × Nat)) :
    SpendingState :=
  execs.foldl (execStep cfg) st

def dailyConsumed (st : SpendingState) : Nat :=
  (st.daily.map SpendingWindow.consumed).getD 0

def weeklyConsumed (st : SpendingState) : Nat :=
  (st.weekly.map SpendingWindow.consumed).getD 0

/-- Both window counters are within their caps. -/
def withinLimits (cfg : SpendingConfig) (st : SpendingState) : Prop :=
  dailyConsumed st ≤ cfg.daily_limit ∧ weeklyConsumed st ≤ cfg.weekly_limit

/-- C10: The decoders are total on malformed input: for every event type, a
topic whose base64 XDR fails to decode yields the unknown event type, and a
value whose decode fails yields an empty actor with the parseError detail set,
so event-log processing returns normally instead of throwing. -/
theorem decoders_total_on_failure (et : String) :
    getEventTypeFromTopic none = "unknown" ∧
    (parseEventValue none et).actor = "" ∧
    (parseEventValue none et).details.parseError = true :=
  ⟨rfl, rfl, rfl⟩

/-- C2: For every event value decoding to a tuple, parseEventValue reports the
acting identity from the first tuple element; a proposal_created tuple of at
least three elements yields proposer from element 0, recipient from element 1
and amount from element 2, and a proposal_approved tuple of at least three
elements yields approval_count as element 1 and threshold as element 2. -/
theorem parse_event_value_tuple_fields (et : String) (e0 e1 e2 : ScNative)
    (tail rest : List ScNative) :
    (parseEventValue (some (.vec (e0 :: tail))) et).actor = addressToNative e0 ∧
    (parseEventValue (some (.vec (e0 :: e1 :: e2 :: rest))) "proposal_created").details.proposer
        = some (addressToNative e0) ∧
    (parseEventValue (some (.vec (e0 :: e1 :: e2 :: rest))) "proposal_created").details.recipient
        = some (addressToNative e1) ∧
    (parseEventValue (some (.vec (e0 :: e1 :: e2 :: rest))) "proposal_created").details.amount
        = some (amountString (some e2)) ∧
    (parseEventValue (some (.vec (e0 :: e1 :: e2 :: rest))) "proposal_approved").details.approval_count
        = some e1 ∧
    (parseEventValue (some (.vec (e0 :: e1 :: e2 :: rest))) "proposal_approved").details.threshold
        = some e2 := by
  have hlen : 3 ≤ (e0 :: e1 :: e2 :: rest).length := by
    simp [List.length_cons]
  refine ⟨?_, ?_, ?_, ?_, ?_, ?_⟩
  · simp only [parseEventValue, addressToNativeOpt, List.head?]
    split_ifs <;> rfl
  · simp [parseEventValue, hlen, addressToNativeOpt]
  · simp [parseEventValue, hlen, addressToNativeOpt]
  · simp [parseEventValue, hlen]
  · simp [parseEventValue, hlen]
  · simp [parseEventValue, hlen]

/-- C6 counterexample: the decoded string unknown is not one of the ten
recognized event names, yet getEventTypeFromTopic returns the decoded name
verbatim for it, because the fallback value coincides with that input; so
returning the decoded name does not imply membership in the ten-name set. -/
theorem event_type_iff_counterexample :
    ¬ ((getEventTypeFromTopic (some (.str "unknown")) = "unknown") ↔
        "unknown" ∈ EVENT_SYMBOLS) := by
  decide

/-- C6 amended: getEventTypeFromTopic returns the decoded string itself
exactly when it is one of the ten recognized names or is the literal string
unknown, and it returns unknown for every decoded string outside the ten. -/
theorem event_type_recognition (s : String) :
    (getEventTypeFromTopic (some (.str s)) = s ↔ (s ∈ EVENT_SYMBOLS ∨ s = "unknown")) ∧
    (s ∉ EVENT_SYMBOLS → getEventTypeFromTopic (some (.str s)) = "unknown") := by
  by_cases h : s ∈ EVENT_SYMBOLS <;>
    simp [getEventTypeFromTopic, h, eq_comm]

/-- C6 witness: the concrete unrecognized name foo is outside the ten and maps
to unknown. -/
theorem event_type_recognition_witness :
    "foo" ∉ VaultDAO.EVENT_SYMBOLS ∧
    getEventTypeFromTopic (some (.str "foo")) = "unknown" :=
  ⟨by decide, (event_type_recognition "foo").2 (by decide)⟩

/-- C4 counterexample: the dashboard declaration of proposal state
(Proposals.tsx line 16) admits the status Approved, so a well-typed proposal,
here proposal 102 of the component with status Approved, holds a state outside
the claimed six-value set; TimelockActive and Ready are not representable at
all in that type. -/
theorem proposal_status_claim_counterexample :
    statusName ({ id := 102, proposer := "GA5W...7K9L", recipient := "GD26L4...Z3X4",
                  amount := "2,500", token := "XLM",
                  memo := "Quarterly server maintenance costs",
                  status := PStatus.Approved, approvals := 1, threshold := 3,
                  createdAt := "2h ago" } : Proposal).status ∉
      ["Pending", "TimelockActive", "Ready", "Executed", "Rejected", "Expired"] := by
  decide

/-- C4 amended: every proposal state is one of exactly the five values the
dashboard type declares: Pending, Approved, Executed, Rejected, Expired. -/
theorem proposal_status_in_declared_set (s : PStatus) :
    statusName s ∈ ["Pending", "Approved", "Executed", "Rejected", "Expired"] := by
  cases s <;> simp [statusName]

/-- C3: Rejection is offered exactly when a caller is present (connected, with
a nonempty address) and is the proposer or holds the Admin role, and only
while the proposal is in a rejectable state, Pending or TimelockActive; since
the dashboard status type cannot represent TimelockActive, Pending is the one
rejectable status the code can meet, and in every other state or for an
absent caller the Reject control is not offered. -/
theorem reject_permission_characterization (isConnected : Bool) (address : Option String)
    (p : Proposal) :
    rejectButtonShown isConnected address p = true ↔
      (isConnected = true ∧
       (∃ a, address = some a ∧ a ≠ "" ∧ (p.proposer = a ∨ userRole = "Admin")) ∧
       (statusName p.status = "Pending" ∨ statusName p.status = "TimelockActive")) := by
  cases address with
  | none => simp [rejectButtonShown, canRejectProposal]
  | some a =>
    cases isConnected with
    | false => simp [rejectButtonShown, canRejectProposal]
    | true =>
      by_cases ha : a = ""
      · subst ha
        simp [rejectButtonShown, canRejectProposal]
      · cases hs : p.status <;>
          simp [rejectButtonShown, canRejectProposal, ha, userRole, statusName, hs] <;>
          decide

/-- C7: A successful rejection of a proposal id rewrites the list pointwise:
the entry carrying that id gets status Rejected with every other field kept,
every entry with a different id is returned unchanged, and a failed or absent
rejection leaves the whole list untouched. -/
theorem reject_frame_effect (rid : Nat) (prev : List Proposal) (i : Nat) :
    (handleRejectConfirm (some rid) true prev).get? i =
      (prev.get? i).map
        (fun p => if p.id = rid then { p with status := PStatus.Rejected } else p) ∧
    handleRejectConfirm (some rid) false prev = prev ∧
    handleRejectConfirm none true prev = prev := by
  refine ⟨?_, rfl, rfl⟩
  simp [handleRejectConfirm, rejectUpdate]

/-- C8: Every mutating hook operation throws Wallet not connected and submits
no transaction whenever the wallet is disconnected or the address is absent. -/
theorem wallet_guard_blocks_mutations (w : WalletState)
    (recipient token amount memo : String) (pid : Nat) (payId : String)
    (interval : Nat) (o : SubmitOutcome)
    (h : w.isConnected = false ∨ addrFalsy w.address = true) :
    proposeTransfer w recipient token amount memo o
        = { outcome := .error "Wallet not connected", submitted := [] } ∧
    rejectProposal w pid o
        = { outcome := .error "Wallet not connected", submitted := [] } ∧
    executeProposal w pid o
        = { outcome := .error "Wallet not connected", submitted := [] } ∧
    schedulePayment w recipient token amount memo interval o
        = { outcome := .error "Wallet not connected", submitted := [] } ∧
    executeRecurringPayment w payId o
        = { outcome := .error "Wallet not connected", submitted := [] } ∧
    cancelRecurringPayment w payId o
        = { outcome := .error "Wallet not connected", submitted := [] } ∧
    pauseRecurringPayment w payId o
        = { outcome := .error "Wallet not connected", submitted := [] } := by
  have hg : walletGuardFails w = true := by
    rcases h with h | h
    · simp [walletGuardFails, h]
    · simp [walletGuardFails, h]
  simp [proposeTransfer, rejectProposal, executeProposal, schedulePayment,
        executeRecurringPayment, cancelRecurringPayment, pauseRecurringPayment, hg]

/-- C8 witness: with a disconnected wallet the propose operation errors with
Wallet not connected and submits nothing. -/
theorem wallet_guard_blocks_mutations_witness :
    (({ isConnected := false, address := none } : WalletState).isConnected = false ∨
      addrFalsy ({ isConnected := false, address := none } : WalletState).address = true) ∧
    proposeTransfer { isConnected := false, address := none } "GR" "GT" "5" "memo"
        (.sent "PENDING" "hash")
      = { outcome := .error "Wallet not connected", submitted := [] } :=
  ⟨Or.inl rfl,
   (wallet_guard_blocks_mutations { isConnected := false, address := none }
      "GR" "GT" "5" "memo" 1 "1" 1 (.sent "PENDING" "hash") (Or.inl rfl)).1⟩

/-- C9: The getEvents request of getVaultEvents carries a pagination limit of
min(n, 200); with no cursor the start ledger is max(1, latestLedger - 50000);
and the returned hasMore flag is true exactly when the response carried a
truthy continuation cursor and the raw event count equals the requested
limit n. -/
theorem events_pagination_correct (cursor : Option String) (limit : Nat)
    (latestLedger : Int) (nowIso : String) (seq : Option Int) (payload : EventsPayload) :
    (eventsRequestParams cursor limit latestLedger).limit = min limit 200 ∧
    (eventsRequestParams none limit latestLedger).startLedger
        = some (toString (max 1 (latestLedger - 50000))) ∧
    ((getVaultEvents cursor limit nowIso (.ok seq) (.ok payload)).hasMore = true ↔
      (cursorTruthy payload.cursor = true ∧ payload.events.length = limit)) := by
  refine ⟨?_, rfl, ?_⟩
  · cases cursor <;> rfl
  · simp [getVaultEvents, Bool.and_eq_true, beq_iff_eq]

/-- C5 counterexample: a getVaultEvents run whose RPC round trips fail returns
the very same normal value as a successful run that found no events; the
failure is caught internally and converted into the default empty result, not
surfaced to the caller as a distinguishable error. -/
theorem get_vault_events_swallows_error :
    getVaultEvents none 20 "2026-01-01T00:00:00Z" (.fail "network down") (.fail "network down")
      = getVaultEvents none 20 "2026-01-01T00:00:00Z" (.ok (some 0)) (.ok {}) := by
  rfl

/-- C5 amended: the mutating hook operations surface every pipeline failure to
the caller as a thrown error, but the read operations behave differently:
getVaultEvents returns the default empty result when either RPC round trip
fails, getDashboardStats returns the all-zero record on failure, and
getRecurringPayments absorbs its account-fetch failure and answers exactly as
on success. -/
theorem error_surfacing_split (call : ContractCall) (checkPending : Bool) (m : String)
    (cursor : Option String) (limit : Nat) (nowIso : String)
    (eventsResp : RpcResult EventsPayload) (seq : Option Int) (now : Int) :
    (submitContractCall call checkPending (.accountFail m)).outcome
        = .error (parseErrorM m) ∧
    (submitContractCall call checkPending (.simError m)).outcome
        = .error (parseErrorM ("Simulation Failed: " ++ m)) ∧
    (submitContractCall call checkPending (.signFail m)).outcome
        = .error (parseErrorM m) ∧
    (submitContractCall call checkPending (.sendFail m)).outcome
        = .error (parseErrorM m) ∧
    getVaultEvents cursor limit nowIso (.fail m) eventsResp = emptyEventsResult ∧
    getVaultEvents cursor limit nowIso (.ok seq) (.fail m) = emptyEventsResult ∧
    getDashboardStats (.fail m)
        = { totalBalance := "0", totalProposals := 0, pendingApprovals := 0,
            readyToExecute := 0, activeSigners := 0, threshold := "0/0" } ∧
    getRecurringPayments now (.fail m) = getRecurringPayments now (.ok ()) :=
  ⟨rfl, rfl, rfl, rfl, rfl, rfl, rfl, rfl⟩

/-- Helper: a successful check_and_consume adds the amount on top of the
loaded window counters and both results respect the caps. -/
theorem check_and_consume_ok_bounds (cfg : SpendingConfig) (st : SpendingState)
    (amount now : Nat) (st2 : SpendingState)
    (h : check_and_consume cfg st amount now = .ok st2) :
    dailyConsumed st2 = (loadWindow st.daily DAY_SECONDS now).consumed + amount ∧
    weeklyConsumed st2 = (loadWindow st.weekly WEEK_SECONDS now).consumed + amount ∧
    dailyConsumed st2 ≤ cfg.daily_limit ∧ weeklyConsumed st2 ≤ cfg.weekly_limit := by
  unfold check_and_consume at h
  simp only [] at h
  split at h
  · exact absurd h (by simp)
  · next hc =>
    rw [Except.ok.injEq] at h
    subst h
    push_neg at hc
    exact ⟨rfl, rfl, hc.1, hc.2⟩

/-- Helper: the within-limits invariant is preserved by any sequence of
execution attempts. -/
theorem runExecutions_withinLimits (cfg : SpendingConfig) (st : SpendingState)
    (execs : List (Nat × Nat)) (h : withinLimits cfg st) :
    withinLimits cfg (runExecutions cfg st execs) := by
  induction execs generalizing st with
  | nil => exact h
  | cons e es ih =>
    have hstep : withinLimits cfg (execStep cfg st e) := by
      unfold execStep
      cases hc : check_and_consume cfg st e.1 e.2 with
      | ok st2 =>
        obtain ⟨_, _, h3, h4⟩ := check_and_consume_ok_bounds cfg st e.1 e.2 st2 hc
        exact ⟨h3, h4⟩
      | error err => exact h
    exact ih (execStep cfg st e) hstep

/-- C1: Spending windows are enforced atomically (modelled from the spec, as
the tracker is not in the repository): a successful check_and_consume raises
both counters by exactly the amount and both stay within daily_limit and
weekly_limit, a LimitExceeded failure commits nothing so both counters are
exactly as they were, and any sequence of executions, manual or recurring,
started within the limits keeps the cumulative in-window consumption within
both limits. -/
theorem spending_limits_enforced (cfg : SpendingConfig) (st : SpendingState)
    (amount now : Nat) (execs : List (Nat × Nat)) :
    (∀ st2, check_and_consume cfg st amount now = .ok st2 →
       dailyConsumed st2 = (loadWindow st.daily DAY_SECONDS now).consumed + amount ∧
       weeklyConsumed st2 = (loadWindow st.weekly WEEK_SECONDS now).consumed + amount ∧
       dailyConsumed st2 ≤ cfg.daily_limit ∧ weeklyConsumed st2 ≤ cfg.weekly_limit) ∧
    (check_and_consume cfg st amount now = .error .LimitExceeded →
       execStep cfg st (amount, now) = st) ∧
    (withinLimits cfg st → withinLimits cfg (runExecutions cfg st execs)) := by
  refine ⟨fun st2 h => check_and_consume_ok_bounds cfg st amount now st2 h, ?_,
          fun h => runExecutions_withinLimits cfg st execs h⟩
  intro h
  simp [execStep, h]

/-- C1 witness: with daily limit 1000, a 600 execution in a fresh window
succeeds leaving 600 consumed within the limit, a second 600 in the same
window fails LimitExceeded and leaves the counters exactly as they were, and
the two-step run stays within the limits. -/
theorem spending_limits_enforced_witness :
    check_and_consume ⟨1000, 5000⟩ ⟨some ⟨0, 0⟩, some ⟨0, 0⟩⟩ 600 0
        = .ok ⟨some ⟨0, 600⟩, some ⟨0, 600⟩⟩ ∧
    dailyConsumed (⟨some ⟨0, 600⟩, some ⟨0, 600⟩⟩ : SpendingState) ≤ 1000 ∧
    check_and_consume ⟨1000, 5000⟩ ⟨some ⟨0, 600⟩, some ⟨0, 600⟩⟩ 600 0
        = .error .LimitExceeded ∧
    execStep ⟨1000, 5000⟩ ⟨some ⟨0, 600⟩, some ⟨0, 600⟩⟩ (600, 0)
        = ⟨some ⟨0, 600⟩, some ⟨0, 600⟩⟩ ∧
    withinLimits ⟨1000, 5000⟩
      (runExecutions ⟨1000, 5000⟩ ⟨none, none⟩ [(600, 0), (600, 0)]) := by
  refine ⟨rfl, ?_, rfl, ?_, ?_⟩
  · exact ((spending_limits_enforced ⟨1000, 5000⟩ ⟨some ⟨0, 0⟩, some ⟨0, 0⟩⟩ 600 0 []).1
      _ rfl).2.2.1
  · exact (spending_limits_enforced ⟨1000, 5000⟩ ⟨some ⟨0, 600⟩, some ⟨0, 600⟩⟩
      600 0 []).2.1 rfl
  · exact (spending_limits_enforced ⟨1000, 5000⟩ ⟨none, none⟩ 0 0
      [(600, 0), (600, 0)]).2.2 (by constructor <;> decide)

end VaultDAO
